import Mathlib

/-!
Shallow embedding of the account-management operation protocol declared in
src/libraries/chain/include/graphene/chain/protocol/account.hpp of the
dascoin-blockchain repository, together with proofs about its authority
requirement resolvers, validation contracts, fee model and wire reflection.

Machine integers of the source (uint8_t, uint16_t, uint32_t) are modelled as
Nat and the signed share_type as Int; none of the properties below exercise
overflow. Each flat_set of account ids is modelled as a Finset, and each
get_required_*_authorities method, which in C++ mutates a set passed by
reference, is modelled as a function from the incoming set to the resulting
set. FC_ASSERT is modelled as an Except computation that raises a
ValidationError carrying the asserted condition text.
-/

set_option autoImplicit false
set_option linter.unusedVariables false

namespace graphene.chain

/-- Account identifier. In the source this is account_id_type from types.hpp,
outside this core; only identity matters to the claims. -/
structure account_id_type where
  instance_id : Nat
deriving DecidableEq

/-- Modelled from the spec: public keys are an external primitive consumed,
not defined, by this core (types.hpp is outside src); only identity matters. -/
abbrev public_key_type := Nat

/-- Modelled from the spec: vote identifiers are an external primitive
(vote.hpp is outside src); only identity matters. -/
abbrev vote_id_type := Nat

/-- Modelled from the spec: asset identifiers are an external primitive
(types.hpp is outside src); only identity matters. -/
abbrev asset_id_type := Nat

/-- share_type is the fc safe int64 wrapper; modelled as Int since no claim
here exercises overflow. -/
abbrev share_type := Int

/-- Modelled from the spec: the asset amount primitive (asset.hpp is outside
src): an amount together with the asset it is denominated in. -/
structure asset where
  amount : share_type
  asset_id : asset_id_type
deriving DecidableEq

/-- Modelled from the spec: the authority primitive, a weighted set of keys
and accounts with a threshold (types.hpp is outside src). The claims treat it
opaquely, only its identity matters. -/
structure authority where
  weight_threshold : Nat
  account_auths : List (account_id_type × Nat)
  key_auths : List (public_key_type × Nat)
deriving DecidableEq

/-- fc void_t, the reserved empty extension placeholder. -/
abbrev void_t := Unit

/-- extensions_type is flat_set of future_extensions, a variant holding only
void_t; external to this core and carrying no information the claims read. -/
abbrev extensions_type := List void_t

/-- Modelled from the spec: special_authority (special_authority.hpp is
outside src) is a variant over no_special_authority and a top-holders
override. The claims only read presence or absence of an optional value of
this type. -/
inductive special_authority where
  | no_special_authority
  | top_holders (asset_sym : asset_id_type) (num_top_holders : Nat)
deriving DecidableEq

/-- Modelled from the spec: buyback_account_options (buyback.hpp is outside
src): the asset to buy, the issuer of that asset, and the markets. The claims
read asset_to_buy_issuer. -/
structure buyback_account_options where
  asset_to_buy : asset_id_type
  asset_to_buy_issuer : account_id_type
  markets : List asset_id_type
deriving DecidableEq

/-- fc extension wrapper (ext.hpp): a record of optional fields whose absent
members are omitted on the wire. -/
structure extension (T : Type) where
  value : T
deriving DecidableEq

/-- account_options: the fields an active authority may update on an
account. -/
structure account_options where
  memo_key : public_key_type
  voting_account : account_id_type
  num_witness : Nat
  num_committee : Nat
  votes : Finset vote_id_type
  extensions : extensions_type
deriving DecidableEq

/-- The single error taxonomy of this layer: a structural validation failure
carrying a human-readable reason, raised by FC_ASSERT. -/
structure ValidationError where
  message : String
deriving DecidableEq

/-- FC_ASSERT cond: succeed when cond holds, otherwise raise a
ValidationError carrying the asserted condition text. -/
def fc_assert (cond : Prop) [Decidable cond] (msg : String) : Except ValidationError Unit :=
  if cond then Except.ok () else Except.error ⟨msg⟩

/-- Nested extension record of account_create_operation (struct ext). -/
structure account_create_operation.ext where
  null_ext : Option void_t
  owner_special_authority : Option special_authority
  active_special_authority : Option special_authority
  buyback_options : Option buyback_account_options
deriving DecidableEq

/-- account_create_operation: create a regular (wallet) account. -/
structure account_create_operation where
  fee : asset
  kind : Nat
  registrar : account_id_type
  referrer : account_id_type
  referrer_percent : Nat
  name : String
  owner : authority
  active : authority
  options : account_options
  extensions : extension account_create_operation.ext
deriving DecidableEq

/-- Empty fee parameter record of account_create_operation. -/
structure account_create_operation.fee_parameters_type where
deriving DecidableEq

def account_create_operation.fee_payer (op : account_create_operation) : account_id_type :=
  op.registrar

def account_create_operation.calculate_fee (op : account_create_operation)
    (p : account_create_operation.fee_parameters_type) : share_type :=
  0

def account_create_operation.get_required_active_authorities
    (op : account_create_operation) (a : Finset account_id_type) :
    Finset account_id_type :=
  let a1 := insert op.registrar a
  match op.extensions.value.buyback_options with
  | some bo => insert bo.asset_to_buy_issuer a1
  | none => a1

/-- Extension record wrapped by account_update_operation. -/
structure ext_account_update_operation where
  null_ext : Option void_t
  owner_special_authority : Option special_authority
  active_special_authority : Option special_authority
deriving DecidableEq

/-- account_update_operation: update an existing account. -/
structure account_update_operation where
  fee : asset
  account : account_id_type
  owner : Option authority
  active : Option authority
  new_options : Option account_options
  extensions : extension ext_account_update_operation
deriving DecidableEq

def account_update_operation.fee_payer (op : account_update_operation) : account_id_type :=
  op.account

def account_update_operation.is_owner_update (op : account_update_operation) : Bool :=
  op.owner.isSome || op.extensions.value.owner_special_authority.isSome

def account_update_operation.get_required_owner_authorities
    (op : account_update_operation) (a : Finset account_id_type) :
    Finset account_id_type :=
  if op.is_owner_update then insert op.account a else a

def account_update_operation.get_required_active_authorities
    (op : account_update_operation) (a : Finset account_id_type) :
    Finset account_id_type :=
  if !op.is_owner_update then insert op.account a else a

/-- account_whitelist_operation: whitelist or blacklist an account. -/
structure account_whitelist_operation where
  fee : asset
  authorizing_account : account_id_type
  account_to_list : account_id_type
  new_listing : Nat
  extensions : extensions_type
deriving DecidableEq

def account_whitelist_operation.fee_payer (op : account_whitelist_operation) :
    account_id_type :=
  op.authorizing_account

/-- Source body: FC_ASSERT( fee.amount >= 0 ); FC_ASSERT( new_listing < 0x4 ). -/
def account_whitelist_operation.validate (op : account_whitelist_operation) :
    Except ValidationError Unit :=
  match fc_assert (0 ≤ op.fee.amount) "fee.amount >= 0" with
  | Except.error e => Except.error e
  | Except.ok _ => fc_assert (op.new_listing < 4) "new_listing < 0x4"

/-- account_upgrade_operation: manage membership status. -/
structure account_upgrade_operation where
  fee : asset
  account_to_upgrade : account_id_type
  upgrade_to_lifetime_member : Bool
  extensions : extensions_type
deriving DecidableEq

def account_upgrade_operation.fee_payer (op : account_upgrade_operation) :
    account_id_type :=
  op.account_to_upgrade

/-- account_transfer_operation: transfer the account to another owner. -/
structure account_transfer_operation where
  fee : asset
  account_id : account_id_type
  new_owner : account_id_type
  extensions : extensions_type
deriving DecidableEq

def account_transfer_operation.fee_payer (op : account_transfer_operation) :
    account_id_type :=
  op.account_id

/-- tether_accounts_operation: tether a vault and a wallet account. -/
structure tether_accounts_operation where
  fee : asset
  wallet_account : account_id_type
  vault_account : account_id_type
  extensions : extensions_type
deriving DecidableEq

/-- Empty fee parameter record of tether_accounts_operation. -/
structure tether_accounts_operation.fee_parameters_type where
deriving DecidableEq

def tether_accounts_operation.fee_payer (op : tether_accounts_operation) :
    account_id_type :=
  op.wallet_account

def tether_accounts_operation.calculate_fee (op : tether_accounts_operation)
    (p : tether_accounts_operation.fee_parameters_type) : share_type :=
  0

def tether_accounts_operation.get_required_active_authorities
    (op : tether_accounts_operation) (a : Finset account_id_type) :
    Finset account_id_type :=
  insert op.vault_account (insert op.wallet_account a)

/-- change_public_keys_operation: rotate the keys of an account. -/
structure change_public_keys_operation where
  fee : asset
  account : account_id_type
  active : Option authority
  owner : Option authority
  extensions : extensions_type
deriving DecidableEq

/-- Empty fee parameter record of change_public_keys_operation. -/
structure change_public_keys_operation.fee_parameters_type where
deriving DecidableEq

def change_public_keys_operation.fee_payer (op : change_public_keys_operation) :
    account_id_type :=
  op.account

def change_public_keys_operation.is_owner_update (op : change_public_keys_operation) : Bool :=
  op.owner.isSome

def change_public_keys_operation.get_required_owner_authorities
    (op : change_public_keys_operation) (a : Finset account_id_type) :
    Finset account_id_type :=
  if op.is_owner_update then insert op.account a else a

def change_public_keys_operation.get_required_active_authorities
    (op : change_public_keys_operation) (a : Finset account_id_type) :
    Finset account_id_type :=
  if !op.is_owner_update then insert op.account a else a

def change_public_keys_operation.calculate_fee (op : change_public_keys_operation)
    (p : change_public_keys_operation.fee_parameters_type) : share_type :=
  0

/-- set_roll_back_enabled_operation. -/
structure set_roll_back_enabled_operation where
  fee : asset
  account : account_id_type
  roll_back_enabled : Bool
  extensions : extensions_type
deriving DecidableEq

/-- Empty fee parameter record of set_roll_back_enabled_operation. -/
structure set_roll_back_enabled_operation.fee_parameters_type where
deriving DecidableEq

def set_roll_back_enabled_operation.fee_payer (op : set_roll_back_enabled_operation) :
    account_id_type :=
  op.account

def set_roll_back_enabled_operation.calculate_fee (op : set_roll_back_enabled_operation)
    (p : set_roll_back_enabled_operation.fee_parameters_type) : share_type :=
  0

/-- roll_back_public_keys_operation. -/
structure roll_back_public_keys_operation where
  fee : asset
  authority : account_id_type
  account : account_id_type
  extensions : extensions_type
deriving DecidableEq

/-- Empty fee parameter record of roll_back_public_keys_operation. -/
structure roll_back_public_keys_operation.fee_parameters_type where
deriving DecidableEq

def roll_back_public_keys_operation.fee_payer (op : roll_back_public_keys_operation) :
    account_id_type :=
  op.authority

def roll_back_public_keys_operation.calculate_fee (op : roll_back_public_keys_operation)
    (p : roll_back_public_keys_operation.fee_parameters_type) : share_type :=
  0

/-- upgrade_account_cycles_operation. -/
structure upgrade_account_cycles_operation where
  fee : asset
  account : account_id_type
  description : String
  extensions : extensions_type
deriving DecidableEq

/-- Empty fee parameter record of upgrade_account_cycles_operation. -/
structure upgrade_account_cycles_operation.fee_parameters_type where
deriving DecidableEq

def upgrade_account_cycles_operation.fee_payer (op : upgrade_account_cycles_operation) :
    account_id_type :=
  op.account

/-- Source body: FC_ASSERT( false ). -/
def upgrade_account_cycles_operation.validate (op : upgrade_account_cycles_operation) :
    Except ValidationError Unit :=
  fc_assert (False) "false"

def upgrade_account_cycles_operation.calculate_fee (op : upgrade_account_cycles_operation)
    (p : upgrade_account_cycles_operation.fee_parameters_type) : share_type :=
  0

/-- set_starting_cycle_asset_amount_operation. -/
structure set_starting_cycle_asset_amount_operation where
  fee : asset
  issuer : account_id_type
  new_amount : Nat
  extensions : extensions_type
deriving DecidableEq

/-- Empty fee parameter record of set_starting_cycle_asset_amount_operation. -/
structure set_starting_cycle_asset_amount_operation.fee_parameters_type where
deriving DecidableEq

def set_starting_cycle_asset_amount_operation.fee_payer
    (op : set_starting_cycle_asset_amount_operation) : account_id_type :=
  op.issuer

/-- Source body: empty, the operation always passes structural validation. -/
def set_starting_cycle_asset_amount_operation.validate
    (op : set_starting_cycle_asset_amount_operation) : Except ValidationError Unit :=
  Except.ok ()

def set_starting_cycle_asset_amount_operation.calculate_fee
    (op : set_starting_cycle_asset_amount_operation)
    (p : set_starting_cycle_asset_amount_operation.fee_parameters_type) : share_type :=
  0

/-- set_chain_authority_operation. -/
structure set_chain_authority_operation where
  fee : asset
  issuer : account_id_type
  account : account_id_type
  kind : String
  extensions : extensions_type
deriving DecidableEq

/-- Empty fee parameter record of set_chain_authority_operation. -/
structure set_chain_authority_operation.fee_parameters_type where
deriving DecidableEq

def set_chain_authority_operation.fee_payer (op : set_chain_authority_operation) :
    account_id_type :=
  op.issuer

/-- Source body: empty, the operation always passes structural validation. -/
def set_chain_authority_operation.validate (op : set_chain_authority_operation) :
    Except ValidationError Unit :=
  Except.ok ()

def set_chain_authority_operation.calculate_fee (op : set_chain_authority_operation)
    (p : set_chain_authority_operation.fee_parameters_type) : share_type :=
  0

/-- Wire image of account_update_operation. Modelled from the spec: the fc
pack machinery (outside src) writes exactly the fields named in the FC_REFLECT
list of the type, in declared order, each field encoded injectively with an
explicit present or absent discriminant for optionals. The wire image is
therefore the ordered record of the reflected fields. The FC_REFLECT list for
account_update_operation in the source names fee, account, owner, active and
new_options; it does not name extensions. -/
structure account_update_operation.wire where
  fee : asset
  account : account_id_type
  owner : Option authority
  active : Option authority
  new_options : Option account_options
deriving DecidableEq

/-- Modelled from the spec: serialisation writes the reflected fields in
declared order. -/
def account_update_operation.serialize (op : account_update_operation) :
    account_update_operation.wire :=
  ⟨op.fee, op.account, op.owner, op.active, op.new_options⟩

/-- Modelled from the spec: a reader decodes the reflected fields and, per the
forward compatibility rule, every extension field absent from the wire decodes
to not present. -/
def account_update_operation.deserialize (w : account_update_operation.wire) :
    account_update_operation :=
  ⟨w.fee, w.account, w.owner, w.active, w.new_options, ⟨⟨none, none, none⟩⟩⟩

/-- A concrete account_update_operation whose owner-special-authority extension
field is populated and whose remaining fields are minimal. -/
def update_with_owner_special_ext : account_update_operation :=
  ⟨⟨0, 0⟩, ⟨5⟩, none, none, none,
   ⟨⟨none, some special_authority.no_special_authority, none⟩⟩⟩

/-- A conditional insert never removes elements of the incoming set. -/
lemma subset_cond_insert {α : Type} [DecidableEq α] (c : Bool) (x : α) (s : Finset α) :
    s ⊆ (if c then insert x s else s) := by
  cases c <;> simp [Finset.subset_insert]

/-- A conditional insert adds at most x to the incoming set. -/
lemma cond_insert_subset {α : Type} [DecidableEq α] (c : Bool) (x : α) (s : Finset α) :
    (if c then insert x s else s) ⊆ s ∪ {x} := by
  cases c <;> intro y hy <;> simp at hy ⊢ <;> tauto

/-- Claim C1: for account_update_operation and change_public_keys_operation the
owner and active requirement resolvers are fully characterised by
is_owner_update: when an owner update is present (a new owner authority is
supplied, or, for account_update, the owner-special-authority extension field
is set) the owner resolver inserts account and the active resolver inserts
nothing, and otherwise the active resolver inserts account and the owner
resolver inserts nothing; on an empty incoming set, account is required by
exactly one of the two classes, never both and never neither. -/
theorem update_and_change_keys_owner_active_exclusive
    (op : account_update_operation) (cop : change_public_keys_operation)
    (a b : Finset account_id_type) :
    (op.get_required_owner_authorities a
        = if op.is_owner_update then insert op.account a else a)
    ∧ (op.get_required_active_authorities a
        = if op.is_owner_update then a else insert op.account a)
    ∧ op.is_owner_update
        = (op.owner.isSome || op.extensions.value.owner_special_authority.isSome)
    ∧ (op.account ∈ op.get_required_owner_authorities (∅ : Finset account_id_type)
        ↔ op.account ∉ op.get_required_active_authorities (∅ : Finset account_id_type))
    ∧ (cop.get_required_owner_authorities b
        = if cop.is_owner_update then insert cop.account b else b)
    ∧ (cop.get_required_active_authorities b
        = if cop.is_owner_update then b else insert cop.account b)
    ∧ cop.is_owner_update = cop.owner.isSome
    ∧ (cop.account ∈ cop.get_required_owner_authorities (∅ : Finset account_id_type)
        ↔ cop.account ∉ cop.get_required_active_authorities (∅ : Finset account_id_type)) := by
  refine ⟨rfl, ?_, rfl, ?_, rfl, ?_, rfl, ?_⟩ <;>
  first
  | (cases h : op.is_owner_update <;>
      simp [account_update_operation.get_required_owner_authorities,
        account_update_operation.get_required_active_authorities, h])
  | (cases h : cop.is_owner_update <;>
      simp [change_public_keys_operation.get_required_owner_authorities,
        change_public_keys_operation.get_required_active_authorities, h])

/-- Claim C2: account_create_operation.get_required_active_authorities always
inserts registrar into the incoming set, inserts the buyback asset issuer
exactly when the buyback_options extension field is populated, and inserts no
other account id. -/
theorem account_create_required_active_characterisation
    (op : account_create_operation) (a : Finset account_id_type) :
    op.get_required_active_authorities a
      = (match op.extensions.value.buyback_options with
         | some bo => insert bo.asset_to_buy_issuer (insert op.registrar a)
         | none => insert op.registrar a) := by
  unfold account_create_operation.get_required_active_authorities
  cases h : op.extensions.value.buyback_options <;> simp [h]

/-- Claim C3: for every tether_accounts_operation, running the active
requirement resolver on an empty set yields exactly the pair of
wallet_account and vault_account, regardless of every other field. -/
theorem tether_accounts_required_active_exactly_pair
    (op : tether_accounts_operation) :
    op.get_required_active_authorities (∅ : Finset account_id_type)
      = {op.wallet_account, op.vault_account} := by
  unfold tether_accounts_operation.get_required_active_authorities
  rw [Finset.Insert.comm]
  simp

/-- Claim C4: the FC_REFLECT list of account_update_operation omits the
extensions field, so serialising an operation whose owner-special-authority
extension field is populated and deserialising the result does not give back
the original operation: the extension is lost and the owner-update flag flips
from true to false. The reflection lists of account_create_operation and
change_public_keys_operation omit their extension slot in the same way. -/
theorem account_update_roundtrip_drops_extension :
    account_update_operation.deserialize
        (account_update_operation.serialize update_with_owner_special_ext)
      ≠ update_with_owner_special_ext
    ∧ update_with_owner_special_ext.is_owner_update = true
    ∧ (account_update_operation.deserialize
        (account_update_operation.serialize update_with_owner_special_ext)).is_owner_update
      = false := by
  refine ⟨?_, rfl, rfl⟩
  decide

/-- Claim C5: account_whitelist_operation.validate succeeds exactly when the
fee amount is non-negative and new_listing is below four, and otherwise it
raises a ValidationError. -/
theorem account_whitelist_validate_iff (op : account_whitelist_operation) :
    (op.validate = Except.ok () ↔ (0 ≤ op.fee.amount ∧ op.new_listing < 4))
    ∧ ((∃ e, op.validate = Except.error e)
        ↔ ¬(0 ≤ op.fee.amount ∧ op.new_listing < 4)) := by
  unfold account_whitelist_operation.validate fc_assert
  by_cases h1 : 0 ≤ op.fee.amount <;> by_cases h2 : op.new_listing < 4 <;>
    simp [h1, h2]

/-- A concrete set_starting_cycle_asset_amount_operation carrying a negative
fee amount. -/
def starting_cycle_op_negative_fee : set_starting_cycle_asset_amount_operation :=
  ⟨⟨-1, 0⟩, ⟨0⟩, 0, []⟩

/-- Claim C6, counterexample: set_starting_cycle_asset_amount_operation has an
empty validate body, so an instance whose fee amount is negative still passes
validation, refuting the claim that every variant whose validate is defined in
this header rejects negative fee amounts. -/
theorem set_starting_cycle_negative_fee_passes_validate :
    starting_cycle_op_negative_fee.fee.amount < 0
    ∧ starting_cycle_op_negative_fee.validate = Except.ok () :=
  ⟨by decide, rfl⟩

/-- Claim C6, amended: of the validate bodies defined in this header,
account_whitelist_operation rejects every operation with a negative fee amount
and upgrade_account_cycles_operation rejects everything, while
set_starting_cycle_asset_amount_operation and set_chain_authority_operation
accept every instance, negative fee amounts included. -/
theorem header_validate_fee_negativity_landscape
    (w : account_whitelist_operation) (u : upgrade_account_cycles_operation)
    (s : set_starting_cycle_asset_amount_operation)
    (c : set_chain_authority_operation) :
    (0 ≤ w.fee.amount ∨ (∃ e, w.validate = Except.error e))
    ∧ (∃ e, u.validate = Except.error e)
    ∧ s.validate = Except.ok ()
    ∧ c.validate = Except.ok () := by
  refine ⟨?_, ⟨⟨"false"⟩, rfl⟩, rfl, rfl⟩
  by_cases h : 0 ≤ w.fee.amount
  · exact Or.inl h
  · refine Or.inr ⟨⟨"fee.amount >= 0"⟩, ?_⟩
    unfold account_whitelist_operation.validate fc_assert
    simp [h]

/-- Claim C7: upgrade_account_cycles_operation.validate raises a
ValidationError on every instance, whatever the values of its fields. -/
theorem upgrade_account_cycles_validate_always_fails
    (op : upgrade_account_cycles_operation) :
    op.validate = Except.error ⟨"false"⟩ := rfl

/-- Claim C8: each of the eight operation variants with an empty
fee_parameters_type record returns a zero fee from calculate_fee, for every
operation instance and every fee parameter argument. -/
theorem empty_fee_parameters_zero_fee
    (o1 : account_create_operation) (p1 : account_create_operation.fee_parameters_type)
    (o2 : tether_accounts_operation) (p2 : tether_accounts_operation.fee_parameters_type)
    (o3 : change_public_keys_operation) (p3 : change_public_keys_operation.fee_parameters_type)
    (o4 : set_roll_back_enabled_operation)
    (p4 : set_roll_back_enabled_operation.fee_parameters_type)
    (o5 : roll_back_public_keys_operation)
    (p5 : roll_back_public_keys_operation.fee_parameters_type)
    (o6 : upgrade_account_cycles_operation)
    (p6 : upgrade_account_cycles_operation.fee_parameters_type)
    (o7 : set_starting_cycle_asset_amount_operation)
    (p7 : set_starting_cycle_asset_amount_operation.fee_parameters_type)
    (o8 : set_chain_authority_operation)
    (p8 : set_chain_authority_operation.fee_parameters_type) :
    o1.calculate_fee p1 = 0 ∧ o2.calculate_fee p2 = 0 ∧ o3.calculate_fee p3 = 0
    ∧ o4.calculate_fee p4 = 0 ∧ o5.calculate_fee p5 = 0 ∧ o6.calculate_fee p6 = 0
    ∧ o7.calculate_fee p7 = 0 ∧ o8.calculate_fee p8 = 0 :=
  ⟨rfl, rfl, rfl, rfl, rfl, rfl, rfl, rfl⟩

/-- Claim C9: every operation variant of this header returns the designated
field of the operation unchanged from fee_payer: registrar for
account_create, account for account_update, change_public_keys,
set_roll_back_enabled and upgrade_account_cycles, authorizing_account for
account_whitelist, account_to_upgrade for account_upgrade, account_id for
account_transfer, wallet_account for tether_accounts, the authority field for
roll_back_public_keys, and issuer for set_starting_cycle_asset_amount and
set_chain_authority. -/
theorem fee_payer_returns_designated_field
    (v1 : account_create_operation) (v2 : account_update_operation)
    (v3 : account_whitelist_operation) (v4 : account_upgrade_operation)
    (v5 : account_transfer_operation) (v6 : tether_accounts_operation)
    (v7 : change_public_keys_operation) (v8 : set_roll_back_enabled_operation)
    (v9 : roll_back_public_keys_operation) (v10 : upgrade_account_cycles_operation)
    (v11 : set_starting_cycle_asset_amount_operation)
    (v12 : set_chain_authority_operation) :
    v1.fee_payer = v1.registrar ∧ v2.fee_payer = v2.account
    ∧ v3.fee_payer = v3.authorizing_account ∧ v4.fee_payer = v4.account_to_upgrade
    ∧ v5.fee_payer = v5.account_id ∧ v6.fee_payer = v6.wallet_account
    ∧ v7.fee_payer = v7.account ∧ v8.fee_payer = v8.account
    ∧ v9.fee_payer = v9.authority ∧ v10.fee_payer = v10.account
    ∧ v11.fee_payer = v11.issuer ∧ v12.fee_payer = v12.issuer :=
  ⟨rfl, rfl, rfl, rfl, rfl, rfl, rfl, rfl, rfl, rfl, rfl, rfl⟩

/-- Claim C10: every authority requirement resolver defined in this header
only adds to the caller-supplied set: every id present before the call is
still present after it, and every id added is a field of the operation (for
account_create, possibly the buyback issuer carried in its extension). -/
theorem required_authorities_monotone_frame
    (oc : account_create_operation) (ou : account_update_operation)
    (ot : tether_accounts_operation) (ck : change_public_keys_operation)
    (a b c d e f : Finset account_id_type) :
    (a ⊆ oc.get_required_active_authorities a
      ∧ oc.get_required_active_authorities a ⊆
          (a ∪ insert oc.registrar
            (match oc.extensions.value.buyback_options with
             | some bo => {bo.asset_to_buy_issuer}
             | none => (∅ : Finset account_id_type))))
    ∧ (b ⊆ ou.get_required_owner_authorities b
      ∧ ou.get_required_owner_authorities b ⊆ b ∪ {ou.account})
    ∧ (c ⊆ ou.get_required_active_authorities c
      ∧ ou.get_required_active_authorities c ⊆ c ∪ {ou.account})
    ∧ (d ⊆ ot.get_required_active_authorities d
      ∧ ot.get_required_active_authorities d ⊆ d ∪ {ot.wallet_account, ot.vault_account})
    ∧ (e ⊆ ck.get_required_owner_authorities e
      ∧ ck.get_required_owner_authorities e ⊆ e ∪ {ck.account})
    ∧ (f ⊆ ck.get_required_active_authorities f
      ∧ ck.get_required_active_authorities f ⊆ f ∪ {ck.account}) := by
  refine ⟨⟨?_, ?_⟩, ⟨?_, ?_⟩, ⟨?_, ?_⟩, ⟨?_, ?_⟩, ⟨?_, ?_⟩, ⟨?_, ?_⟩⟩
  · intro y hy
    unfold account_create_operation.get_required_active_authorities
    cases h : oc.extensions.value.buyback_options <;> simp [h] <;> tauto
  · intro y hy
    unfold account_create_operation.get_required_active_authorities at hy
    cases h : oc.extensions.value.buyback_options <;>
      simp [h] at hy ⊢ <;> tauto
  · exact subset_cond_insert _ _ _
  · exact cond_insert_subset _ _ _
  · exact subset_cond_insert _ _ _
  · exact cond_insert_subset _ _ _
  · intro y hy
    unfold tether_accounts_operation.get_required_active_authorities
    simp
    tauto
  · intro y hy
    unfold tether_accounts_operation.get_required_active_authorities at hy
    simp at hy ⊢
    tauto
  · exact subset_cond_insert _ _ _
  · exact cond_insert_subset _ _ _
  · exact subset_cond_insert _ _ _
  · exact cond_insert_subset _ _ _

end graphene.chain
